import Mathlib

/-!
A shallow embedding of the webhook receiver in `src/main.rs`: the event
model, the two event handlers, and the four query/update operations,
together with the document-store gateway they call.

Modelling conventions:
* The Firestore client is replaced by an explicit `StoreState` holding the
  two collections as association lists keyed by document id.
* Each store call that can fail in the source (`map_err` branches) takes an
  explicit Boolean fault flag; `true` means that call fails with the
  corresponding wrapped error, `false` means it succeeds.
* A field-masked upsert (`update().fields(paths!(..)).object(..)`) merges
  exactly the listed fields of the passed object into the existing document
  (or into a default base when the document is absent), per the store
  gateway contract of field-list writes.
* `i32` values are modelled as `Int`; `FirestoreTimestamp` as a `Nat`
  supplied by a `now` parameter.
* Every operation also returns the list of store calls it attempted, in
  order, so that sequencing claims can be stated.
-/

namespace IntendHooks

/-- `TaskData` from the source (`nexa` payload): `text` and `_id`. -/
structure TaskData where
  text : String
  mid : String
deriving DecidableEq, Repr

/-- `Colors` from the source. -/
structure Colors where
  color : String
deriving DecidableEq, Repr

/-- The `Event` enum: tagged by `eventKey`, with a catch-all `Other`. -/
inductive Event where
  | TaskChange (goal_name : String) (username : String) (nexa : TaskData) (colors : Colors)
  | TimerEnd (username : String)
  | Other
deriving DecidableEq, Repr

/-- `FirestoreTask`: the persisted Task document. -/
structure FirestoreTask where
  goal_name : String
  username : String
  task_name : String
  color : String
  updated_at : Nat
  message : Option String
  speed_rating : Option Int
deriving DecidableEq, Repr

/-- `User`: the persisted User document. -/
structure User where
  id : String
  current_task_id : String
  pomodoro_spent : Int
deriving DecidableEq, Repr

/-- `UpdateResponse`: what `process_event` returns. -/
structure UpdateResponse where
  task : Option FirestoreTask
  user : Option User
deriving DecidableEq, Repr

/-- Errors surfaced by the handlers (the source maps them to HTTP errors). -/
inductive HandlerError where
  | notFound (msg : String)
  | storeReadFailed (collection : String)
  | storeWriteFailed (collection : String)
  | storeQueryFailed (collection : String)
deriving DecidableEq, Repr

/-- A store call, recorded in the order it was attempted. -/
inductive StoreOp where
  | readTask (docId : String)
  | readUser (docId : String)
  | writeTask (docId : String)
  | writeUser (docId : String)
  | queryTasks (username : String)
deriving DecidableEq, Repr

/-- Lookup in an association list keyed by document id. -/
def getAssoc {α : Type} : List (String × α) → String → Option α
  | [], _ => none
  | (k, v) :: rest, key => if k = key then some v else getAssoc rest key

/-- Insert-or-replace in an association list keyed by document id. -/
def setAssoc {α : Type} : List (String × α) → String → α → List (String × α)
  | [], key, v => [(key, v)]
  | (k, w) :: rest, key, v =>
      if k = key then (key, v) :: rest else (k, w) :: setAssoc rest key v

/-- The two collections of the persisted state. -/
structure StoreState where
  tasks : List (String × FirestoreTask)
  users : List (String × User)
deriving DecidableEq, Repr

/-- The writable fields of a Task document. -/
inductive TaskField where
  | goal_name | username | task_name | color | updated_at | message | speed_rating
deriving DecidableEq, Repr

/-- The writable fields of a User document. -/
inductive UserField where
  | id | current_task_id | pomodoro_spent
deriving DecidableEq, Repr

/-- Copy one field of `src` into `dst`. -/
def setTaskField (f : TaskField) (src dst : FirestoreTask) : FirestoreTask :=
  match f with
  | .goal_name => { dst with goal_name := src.goal_name }
  | .username => { dst with username := src.username }
  | .task_name => { dst with task_name := src.task_name }
  | .color => { dst with color := src.color }
  | .updated_at => { dst with updated_at := src.updated_at }
  | .message => { dst with message := src.message }
  | .speed_rating => { dst with speed_rating := src.speed_rating }

/-- Copy one field of `src` into `dst`. -/
def setUserField (f : UserField) (src dst : User) : User :=
  match f with
  | .id => { dst with id := src.id }
  | .current_task_id => { dst with current_task_id := src.current_task_id }
  | .pomodoro_spent => { dst with pomodoro_spent := src.pomodoro_spent }

/-- Merge the listed fields of `obj` into `base`. -/
def applyTaskFields (fields : List TaskField) (obj base : FirestoreTask) : FirestoreTask :=
  fields.foldl (fun d f => setTaskField f obj d) base

/-- Merge the listed fields of `obj` into `base`. -/
def applyUserFields (fields : List UserField) (obj base : User) : User :=
  fields.foldl (fun d f => setUserField f obj d) base

/-- Base document used when a field-masked upsert creates a fresh document:
unlisted fields are absent, read back as empty/none. -/
def defaultTask : FirestoreTask :=
  { goal_name := "", username := "", task_name := "", color := "",
    updated_at := 0, message := none, speed_rating := none }

/-- Base document used when a field-masked upsert creates a fresh document. -/
def defaultUser : User :=
  { id := "", current_task_id := "", pomodoro_spent := 0 }

/-- Field-masked upsert into the `tasks` collection: returns the stored
document (what `execute` deserializes back) and the new collection. -/
def upsertTask (col : List (String × FirestoreTask)) (docId : String)
    (fields : List TaskField) (obj : FirestoreTask) :
    FirestoreTask × List (String × FirestoreTask) :=
  let base := (getAssoc col docId).getD defaultTask
  let merged := applyTaskFields fields obj base
  (merged, setAssoc col docId merged)

/-- Field-masked upsert into the `users` collection. -/
def upsertUser (col : List (String × User)) (docId : String)
    (fields : List UserField) (obj : User) :
    User × List (String × User) :=
  let base := (getAssoc col docId).getD defaultUser
  let merged := applyUserFields fields obj base
  (merged, setAssoc col docId merged)

/-- The field list of the Task write in `handle_task_change`. -/
def taskChangeTaskFields : List TaskField :=
  [.goal_name, .username, .task_name, .color, .updated_at]

/-- The field list of the User write in `handle_task_change`. -/
def taskChangeUserFields : List UserField :=
  [.id, .current_task_id, .pomodoro_spent]

/-- `handle_task_change`: builds the new Task, writes it at key
`nexa.text` into `tasks`, then writes the User at key `username` with
`current_task_id = task_name` and `pomodoro_spent = 0`. -/
def handle_task_change (fTaskWrite fUserWrite : Bool) (now : Nat)
    (goal_name username : String) (nexa : TaskData) (colors : Colors)
    (s : StoreState) :
    Except HandlerError (FirestoreTask × User) × StoreState × List StoreOp :=
  let task_name := nexa.text
  let color := colors.color
  let new_task : FirestoreTask :=
    { goal_name := goal_name, username := username, task_name := task_name,
      color := color, updated_at := now, message := none, speed_rating := none }
  if fTaskWrite then
    (.error (.storeWriteFailed "tasks"), s, [.writeTask task_name])
  else
    let wt := upsertTask s.tasks task_name taskChangeTaskFields new_task
    let task_updated := wt.1
    let s1 : StoreState := { s with tasks := wt.2 }
    if fUserWrite then
      (.error (.storeWriteFailed "users"), s1,
        [.writeTask task_name, .writeUser username])
    else
      let wu := upsertUser s1.users username taskChangeUserFields
        { id := username, current_task_id := task_name, pomodoro_spent := 0 }
      (.ok (task_updated, wu.1), { s1 with users := wu.2 },
        [.writeTask task_name, .writeUser username])

/-- The field list of the User write in `handle_timer_end`:
`current_task_id` is deliberately not listed. -/
def timerEndUserFields : List UserField := [.id, .pomodoro_spent]

/-- `handle_timer_end`: reads the User (absent is not an error), computes
`new_pomodoro_spent` (`n + 1` if found, else `0`), and writes the User with
fields `{id, pomodoro_spent}`, passing an object whose `current_task_id`
is the empty string. -/
def handle_timer_end (fRead fWrite : Bool) (username : String) (s : StoreState) :
    Except HandlerError User × StoreState × List StoreOp :=
  if fRead then
    (.error (.storeReadFailed "users"), s, [.readUser username])
  else
    let user := getAssoc s.users username
    let new_pomodoro_spent : Int :=
      match user with
      | some u => u.pomodoro_spent + 1
      | none => 0
    if fWrite then
      (.error (.storeWriteFailed "users"), s, [.readUser username, .writeUser username])
    else
      let wu := upsertUser s.users username timerEndUserFields
        { id := username, current_task_id := "", pomodoro_spent := new_pomodoro_spent }
      (.ok wu.1, { s with users := wu.2 }, [.readUser username, .writeUser username])

/-- `process_event`: dispatches on the event variant; `Other` is a no-op
with both response fields absent. -/
def process_event (fTaskWrite fUserWrite fTimerRead fTimerWrite : Bool)
    (now : Nat) (event : Event) (s : StoreState) :
    Except HandlerError UpdateResponse × StoreState × List StoreOp :=
  match event with
  | .TaskChange goal_name username nexa colors =>
      match handle_task_change fTaskWrite fUserWrite now goal_name username nexa colors s with
      | (.ok (task, user), s1, ops) => (.ok { task := some task, user := some user }, s1, ops)
      | (.error e, s1, ops) => (.error e, s1, ops)
  | .TimerEnd username =>
      match handle_timer_end fTimerRead fTimerWrite username s with
      | (.ok user, s1, ops) => (.ok { task := none, user := some user }, s1, ops)
      | (.error e, s1, ops) => (.error e, s1, ops)
  | .Other => (.ok { task := none, user := none }, s, [])

/-- The ordering used by `get_user_tasks`: `updated_at` descending. -/
def taskOrder (a b : FirestoreTask) : Prop :=
  b.updated_at ≤ a.updated_at

instance : DecidableRel taskOrder :=
  fun a b => inferInstanceAs (Decidable (b.updated_at ≤ a.updated_at))

instance : IsTotal FirestoreTask taskOrder :=
  ⟨fun a b => Nat.le_total b.updated_at a.updated_at⟩

instance : IsTrans FirestoreTask taskOrder :=
  ⟨fun _ _ _ hab hbc => Nat.le_trans hbc hab⟩

/-- Field selection of the `get_user_tasks` query: only
`{goal_name, username, task_name, color, updated_at}` are returned, so
`message` and `speed_rating` deserialize as absent. -/
def projectListFields (t : FirestoreTask) : FirestoreTask :=
  { t with message := none, speed_rating := none }

/-- `get_user_tasks`: queries `tasks` where `username == user_id`, ordered
by `updated_at` descending with the listed field selection, and collects
the stream into a vector. -/
def get_user_tasks (fQuery : Bool) (user_id : String) (s : StoreState) :
    Except HandlerError (List FirestoreTask) × StoreState × List StoreOp :=
  if fQuery then
    (.error (.storeQueryFailed "tasks"), s, [.queryTasks user_id])
  else
    let matching :=
      (s.tasks.filter (fun p => p.2.username == user_id)).map
        (fun p => projectListFields p.2)
    (.ok (List.insertionSort taskOrder matching), s, [.queryTasks user_id])

/-- `get_user_current_task`: fetches the User; absent user or empty
`current_task_id` yields `none`; otherwise returns whatever the Task
lookup by `current_task_id` yields. -/
def get_user_current_task (fUserRead fTaskRead : Bool) (user_id : String)
    (s : StoreState) :
    Except HandlerError (Option FirestoreTask) × StoreState × List StoreOp :=
  if fUserRead then
    (.error (.storeReadFailed "users"), s, [.readUser user_id])
  else
    match getAssoc s.users user_id with
    | none => (.ok none, s, [.readUser user_id])
    | some user =>
        if user.current_task_id.isEmpty then
          (.ok none, s, [.readUser user_id])
        else if fTaskRead then
          (.error (.storeReadFailed "tasks"), s,
            [.readUser user_id, .readTask user.current_task_id])
        else
          (.ok (getAssoc s.tasks user.current_task_id), s,
            [.readUser user_id, .readTask user.current_task_id])

/-- The field list of the Task write in `update_speed_rating`. -/
def updateSpeedRatingFields : List TaskField := [.updated_at, .speed_rating]

/-- `update_speed_rating`: guard-reads the Task by `task_name`; absent
fails with `NotFound`; otherwise writes fields `{updated_at, speed_rating}`
from an object whose other fields are empty placeholders. -/
def update_speed_rating (fRead fWrite : Bool) (now : Nat)
    (task_name : String) (speed_rating : Int) (s : StoreState) :
    Except HandlerError FirestoreTask × StoreState × List StoreOp :=
  if fRead then
    (.error (.storeReadFailed "tasks"), s, [.readTask task_name])
  else
    match getAssoc s.tasks task_name with
    | none => (.error (.notFound "Task not found"), s, [.readTask task_name])
    | some _ =>
        let task : FirestoreTask :=
          { goal_name := "", username := "", task_name := task_name, color := "",
            updated_at := now, message := none, speed_rating := some speed_rating }
        if fWrite then
          (.error (.storeWriteFailed "tasks"), s,
            [.readTask task_name, .writeTask task_name])
        else
          let wt := upsertTask s.tasks task_name updateSpeedRatingFields task
          (.ok wt.1, { s with tasks := wt.2 },
            [.readTask task_name, .writeTask task_name])

/-- The field list of the Task write in `update_message`. -/
def updateMessageFields : List TaskField := [.updated_at, .message]

/-- `update_message`: same guard pattern; writes fields
`{updated_at, message}`; `username` is carried in the object but not in
the field list. -/
def update_message (fRead fWrite : Bool) (now : Nat)
    (user_id task_name : String) (message : String) (s : StoreState) :
    Except HandlerError FirestoreTask × StoreState × List StoreOp :=
  if fRead then
    (.error (.storeReadFailed "tasks"), s, [.readTask task_name])
  else
    match getAssoc s.tasks task_name with
    | none => (.error (.notFound "Task not found"), s, [.readTask task_name])
    | some _ =>
        let new_task : FirestoreTask :=
          { goal_name := "", username := user_id, task_name := task_name, color := "",
            updated_at := now, message := some message, speed_rating := none }
        if fWrite then
          (.error (.storeWriteFailed "tasks"), s,
            [.readTask task_name, .writeTask task_name])
        else
          let wt := upsertTask s.tasks task_name updateMessageFields new_task
          (.ok wt.1, { s with tasks := wt.2 },
            [.readTask task_name, .writeTask task_name])

/-- `update_speed_rating_handler`: destructures the path into
`(_user_id, task_name)` and calls `update_speed_rating`; the `userId`
path segment is discarded. -/
def update_speed_rating_handler (fRead fWrite : Bool) (now : Nat)
    (path : String × String) (payload : Int) (s : StoreState) :
    Except HandlerError FirestoreTask × StoreState × List StoreOp :=
  match path with
  | (_user_id, task_name) => update_speed_rating fRead fWrite now task_name payload s

/-- `update_message_handler`: destructures the path into
`(user_id, task_name)` and calls `update_message`. -/
def update_message_handler (fRead fWrite : Bool) (now : Nat)
    (path : String × String) (payload : String) (s : StoreState) :
    Except HandlerError FirestoreTask × StoreState × List StoreOp :=
  match path with
  | (user_id, task_name) => update_message fRead fWrite now user_id task_name payload s

/-- JSON values, for modelling the serde decoding of `Event`. -/
inductive Json where
  | null
  | bool (b : Bool)
  | num (n : Int)
  | str (s : String)
  | arr (items : List Json)
  | obj (fields : List (String × Json))

/-- Decoding of the internally tagged `Event` enum
(`#[serde(tag = "eventKey")]` with an `#[serde(other)]` catch-all):
the discriminant must be present and a string; a matched variant requires
its payload fields; any other string tag yields `Other`. -/
def decodeEvent (j : Json) : Except String Event :=
  match j with
  | .obj fields =>
      match getAssoc fields "eventKey" with
      | some (.str tag) =>
          if tag = "nexa.change" then
            match getAssoc fields "goalName", getAssoc fields "username",
                  getAssoc fields "nexa", getAssoc fields "colors" with
            | some (.str goal_name), some (.str username),
              some (.obj nexaFields), some (.obj colorFields) =>
                match getAssoc nexaFields "text", getAssoc nexaFields "_id",
                      getAssoc colorFields "color" with
                | some (.str text), some (.str mid), some (.str color) =>
                    .ok (.TaskChange goal_name username
                      { text := text, mid := mid } { color := color })
                | _, _, _ => .error "malformed TaskChange payload"
            | _, _, _, _ => .error "malformed TaskChange payload"
          else if tag = "timer.pomo.workcomplete" then
            match getAssoc fields "username" with
            | some (.str username) => .ok (.TimerEnd username)
            | _ => .error "malformed TimerEnd payload"
          else
            .ok .Other
      | some _ => .error "eventKey is not a string"
      | none => .error "missing field eventKey"
  | _ => .error "expected an object"

/-- After `setAssoc`, looking up the same key yields the new value. -/
theorem getAssoc_setAssoc_self {α : Type} (l : List (String × α)) (k : String) (v : α) :
    getAssoc (setAssoc l k v) k = some v := by
  induction l with
  | nil => simp [setAssoc, getAssoc]
  | cons hd tl ih =>
      obtain ⟨k1, v1⟩ := hd
      by_cases h : k1 = k
      · simp [setAssoc, getAssoc, h]
      · simp [setAssoc, getAssoc, h, ih]

/-- C1: every `TaskChange` processed by `handle_task_change` (with both
writes succeeding) leaves at key `username` a User document with
`id = username`, `current_task_id` equal to the submitted task text, and
`pomodoro_spent = 0`, for every prior store state, and returns that same
document in the response. -/
theorem handle_task_change_user_doc (now : Nat) (goal_name username : String)
    (nexa : TaskData) (colors : Colors) (s : StoreState) :
    getAssoc ((handle_task_change false false now goal_name username nexa colors s).2.1).users
        username =
      some { id := username, current_task_id := nexa.text, pomodoro_spent := 0 }
    ∧ ∃ t, (handle_task_change false false now goal_name username nexa colors s).1 =
        .ok (t, { id := username, current_task_id := nexa.text, pomodoro_spent := 0 }) := by
  constructor
  · simp [handle_task_change, upsertUser, taskChangeUserFields, applyUserFields,
      setUserField, getAssoc_setAssoc_self]
  · exact ⟨_, rfl⟩

/-- C2: `handle_timer_end` (with read and write succeeding) stores and
returns a User whose `pomodoro_spent` is `0` when no User document exists
for `username`, and `n + 1` when one exists with `pomodoro_spent = n`. -/
theorem handle_timer_end_count (username : String) (s : StoreState) :
    ∃ u, (handle_timer_end false false username s).1 = .ok u
    ∧ getAssoc ((handle_timer_end false false username s).2.1).users username = some u
    ∧ u.pomodoro_spent =
        (match getAssoc s.users username with
         | none => 0
         | some u0 => u0.pomodoro_spent + 1) := by
  cases h : getAssoc s.users username with
  | none =>
      refine ⟨_, rfl, ?_, ?_⟩
      · simp [handle_timer_end, upsertUser, getAssoc_setAssoc_self]
      · simp [handle_timer_end, upsertUser, h, timerEndUserFields, applyUserFields,
          setUserField]
  | some u0 =>
      refine ⟨_, rfl, ?_, ?_⟩
      · simp [handle_timer_end, upsertUser, getAssoc_setAssoc_self]
      · simp [handle_timer_end, upsertUser, h, timerEndUserFields, applyUserFields,
          setUserField]

/-- C3: any JSON object whose `eventKey` is a string outside the table
decodes to `Other` (never an error), and `process_event` on `Other`
changes no store state, attempts no store call, and answers with both
response fields absent. -/
theorem decode_unknown_yields_other_noop (fields : List (String × Json)) (tag : String)
    (h1 : getAssoc fields "eventKey" = some (Json.str tag))
    (h2 : tag ≠ "nexa.change") (h3 : tag ≠ "timer.pomo.workcomplete")
    (f1 f2 f3 f4 : Bool) (now : Nat) (s : StoreState) :
    decodeEvent (Json.obj fields) = .ok .Other
    ∧ process_event f1 f2 f3 f4 now .Other s = (.ok { task := none, user := none }, s, []) := by
  constructor
  · simp [decodeEvent, h1, h2, h3]
  · rfl

/-- C3 witness: decoding an object with `eventKey = "unknown.thing"`
yields `Other`, and processing it is a no-op response. -/
theorem decode_unknown_yields_other_noop_witness :
    decodeEvent (Json.obj [("eventKey", Json.str "unknown.thing")]) = .ok .Other
    ∧ process_event false false false false 0 .Other { tasks := [], users := [] } =
        (.ok { task := none, user := none }, { tasks := [], users := [] }, []) :=
  decode_unknown_yields_other_noop [("eventKey", Json.str "unknown.thing")]
    "unknown.thing" rfl (by decide) (by decide) false false false false 0
    { tasks := [], users := [] }

/-- C4: `update_speed_rating` and `update_message` fail with `NotFound`
exactly when the guard read succeeds and finds no Task at `task_name`;
in that case the store state is unchanged and only the guard read was
attempted. -/
theorem guarded_updates_not_found (fRead fWrite : Bool) (now : Nat)
    (user_id task_name : String) (rating : Int) (msg : String) (s : StoreState) :
    ((update_speed_rating fRead fWrite now task_name rating s).1 =
        .error (.notFound "Task not found")
      ↔ (fRead = false ∧ getAssoc s.tasks task_name = none))
    ∧ ((update_message fRead fWrite now user_id task_name msg s).1 =
        .error (.notFound "Task not found")
      ↔ (fRead = false ∧ getAssoc s.tasks task_name = none))
    ∧ (getAssoc s.tasks task_name = none →
        update_speed_rating false fWrite now task_name rating s =
          (.error (.notFound "Task not found"), s, [.readTask task_name])
        ∧ update_message false fWrite now user_id task_name msg s =
          (.error (.notFound "Task not found"), s, [.readTask task_name])) := by
  refine ⟨?_, ?_, ?_⟩
  · cases fRead with
    | false =>
        cases h : getAssoc s.tasks task_name with
        | none => simp [update_speed_rating, h]
        | some t0 => cases fWrite <;> simp [update_speed_rating, h]
    | true => simp [update_speed_rating]
  · cases fRead with
    | false =>
        cases h : getAssoc s.tasks task_name with
        | none => simp [update_message, h]
        | some t0 => cases fWrite <;> simp [update_message, h]
    | true => simp [update_message]
  · intro h
    exact ⟨by simp [update_speed_rating, h], by simp [update_message, h]⟩

/-- C4 witness: on an empty store, both updates fail with `NotFound` and
leave the store untouched, and the `NotFound` characterization holds. -/
theorem guarded_updates_not_found_witness :
    update_speed_rating false false 7 "abc" 5 { tasks := [], users := [] } =
      (.error (.notFound "Task not found"), { tasks := [], users := [] }, [.readTask "abc"])
    ∧ update_message false false 7 "alice" "abc" "hi" { tasks := [], users := [] } =
      (.error (.notFound "Task not found"), { tasks := [], users := [] }, [.readTask "abc"]) :=
  (guarded_updates_not_found false false 7 "alice" "abc" 5 "hi"
    { tasks := [], users := [] }).2.2 rfl

/-- C5: on an existing task `t0`, `update_speed_rating` declares exactly
the fields `{updated_at, speed_rating}` and `update_message` exactly
`{updated_at, message}`; the stored and returned document is `t0` with
only those fields changed — `goal_name`, `username`, `task_name`, `color`
and the untargeted optional field keep their prior values despite the
placeholder values carried by the write object. -/
theorem guarded_updates_frame (now : Nat) (user_id task_name : String)
    (rating : Int) (msg : String) (s : StoreState) (t0 : FirestoreTask)
    (h : getAssoc s.tasks task_name = some t0) :
    updateSpeedRatingFields = [TaskField.updated_at, TaskField.speed_rating]
    ∧ updateMessageFields = [TaskField.updated_at, TaskField.message]
    ∧ (update_speed_rating false false now task_name rating s).1 =
        .ok { t0 with updated_at := now, speed_rating := some rating }
    ∧ getAssoc ((update_speed_rating false false now task_name rating s).2.1).tasks
        task_name = some { t0 with updated_at := now, speed_rating := some rating }
    ∧ (update_message false false now user_id task_name msg s).1 =
        .ok { t0 with updated_at := now, message := some msg }
    ∧ getAssoc ((update_message false false now user_id task_name msg s).2.1).tasks
        task_name = some { t0 with updated_at := now, message := some msg } := by
  refine ⟨rfl, rfl, ?_, ?_, ?_, ?_⟩
  · simp [update_speed_rating, h, upsertTask, updateSpeedRatingFields,
      applyTaskFields, setTaskField]
  · simp [update_speed_rating, h, upsertTask, updateSpeedRatingFields,
      applyTaskFields, setTaskField, getAssoc_setAssoc_self]
  · simp [update_message, h, upsertTask, updateMessageFields,
      applyTaskFields, setTaskField]
  · simp [update_message, h, upsertTask, updateMessageFields,
      applyTaskFields, setTaskField, getAssoc_setAssoc_self]

/-- C5 witness: setting the speed rating of a task whose `message` is set
leaves the message (and all identity fields) unchanged. -/
theorem guarded_updates_frame_witness :
    (update_speed_rating false false 9 "abc" 5
        { tasks := [("abc",
            { goal_name := "G", username := "alice", task_name := "abc", color := "#fff",
              updated_at := 1, message := some "keep me", speed_rating := none })],
          users := [] }).1 =
      .ok { goal_name := "G", username := "alice", task_name := "abc", color := "#fff",
            updated_at := 9, message := some "keep me", speed_rating := some 5 } :=
  (guarded_updates_frame 9 "alice" "abc" 5 "hi"
    { tasks := [("abc",
        { goal_name := "G", username := "alice", task_name := "abc", color := "#fff",
          updated_at := 1, message := some "keep me", speed_rating := none })],
      users := [] }
    { goal_name := "G", username := "alice", task_name := "abc", color := "#fff",
      updated_at := 1, message := some "keep me", speed_rating := none } rfl).2.2.1

/-- C6: `get_user_current_task` returns `.ok none` when the User document
is absent or its `current_task_id` is empty; otherwise it returns exactly
the result of the Task lookup by `current_task_id`, which may itself be
`none` for a dangling reference. -/
theorem get_user_current_task_spec (user_id : String) (s : StoreState) :
    (getAssoc s.users user_id = none →
      (get_user_current_task false false user_id s).1 = .ok none)
    ∧ (∀ u, getAssoc s.users user_id = some u → u.current_task_id = "" →
      (get_user_current_task false false user_id s).1 = .ok none)
    ∧ (∀ u, getAssoc s.users user_id = some u → u.current_task_id ≠ "" →
      (get_user_current_task false false user_id s).1 =
        .ok (getAssoc s.tasks u.current_task_id)) := by
  refine ⟨?_, ?_, ?_⟩
  · intro h
    simp [get_user_current_task, h]
  · intro u hu hempty
    simp [get_user_current_task, hu, String.isEmpty_iff, hempty]
  · intro u hu hne
    simp [get_user_current_task, hu, String.isEmpty_iff, hne]

/-- C6 witness: a user whose `current_task_id` points at a deleted task
gets `none`, not an error. -/
theorem get_user_current_task_spec_witness :
    (get_user_current_task false false "alice"
        { tasks := [],
          users := [("alice",
            { id := "alice", current_task_id := "gone", pomodoro_spent := 2 })] }).1 =
      .ok none := by
  have h := (get_user_current_task_spec "alice"
    { tasks := [],
      users := [("alice",
        { id := "alice", current_task_id := "gone", pomodoro_spent := 2 })] }).2.2
    { id := "alice", current_task_id := "gone", pomodoro_spent := 2 } rfl (by decide)
  simpa using h

/-- C7: `get_user_tasks` returns exactly the Task documents whose
`username` equals `user_id` (as a permutation of the filtered, projected
collection), fully materialized, sorted by `updated_at` descending, with
only the listed fields (`message` and `speed_rating` always absent); a
user with no matching tasks gets the empty sequence, not an error. -/
theorem get_user_tasks_spec (user_id : String) (s : StoreState) :
    ∃ ts, get_user_tasks false user_id s = (.ok ts, s, [.queryTasks user_id])
    ∧ List.Perm ts ((s.tasks.filter (fun p => p.2.username == user_id)).map
        (fun p => projectListFields p.2))
    ∧ List.Sorted taskOrder ts
    ∧ (∀ t ∈ ts, t.username = user_id ∧ t.message = none ∧ t.speed_rating = none)
    ∧ ((∀ p ∈ s.tasks, p.2.username ≠ user_id) → ts = []) := by
  refine ⟨_, rfl, List.perm_insertionSort _ _, List.sorted_insertionSort _ _, ?_, ?_⟩
  · intro t ht
    rw [List.mem_insertionSort] at ht
    obtain ⟨p, hp, rfl⟩ := List.mem_map.mp ht
    obtain ⟨_, hmatch⟩ := List.mem_filter.mp hp
    exact ⟨eq_of_beq hmatch, rfl, rfl⟩
  · intro hnone
    have hfil : s.tasks.filter (fun p => p.2.username == user_id) = [] := by
      rw [List.filter_eq_nil_iff]
      intro p hp
      simpa using hnone p hp
    rw [hfil]
    rfl

/-- C7 witness: a user with no tasks in the store gets the empty list. -/
theorem get_user_tasks_spec_witness :
    (get_user_tasks false "nobody"
        { tasks := [("abc",
            { goal_name := "G", username := "alice", task_name := "abc", color := "#fff",
              updated_at := 1, message := none, speed_rating := none })],
          users := [] }).1 = .ok [] := by
  obtain ⟨ts, h1, -, -, -, h5⟩ := get_user_tasks_spec "nobody"
    { tasks := [("abc",
        { goal_name := "G", username := "alice", task_name := "abc", color := "#fff",
          updated_at := 1, message := none, speed_rating := none })],
      users := [] }
  rw [h1, h5 (by decide)]

/-- C8: in `handle_task_change` the Task write always precedes the User
write in the attempted-operation trace; if the Task write fails the
handler aborts with the `tasks` write error, the state is unchanged and
no User write is attempted; if the User write fails the handler surfaces
the `users` write error but the already-committed Task write (carrying
the submitted goal, username, task name, color and timestamp) remains in
the store. -/
theorem handle_task_change_ordering (fUserWrite : Bool) (now : Nat)
    (goal_name username : String) (nexa : TaskData) (colors : Colors) (s : StoreState) :
    handle_task_change true fUserWrite now goal_name username nexa colors s =
      (.error (.storeWriteFailed "tasks"), s, [.writeTask nexa.text])
    ∧ (handle_task_change false fUserWrite now goal_name username nexa colors s).2.2 =
        [.writeTask nexa.text, .writeUser username]
    ∧ (handle_task_change false true now goal_name username nexa colors s).1 =
        .error (.storeWriteFailed "users")
    ∧ ∃ t, getAssoc ((handle_task_change false true now goal_name username nexa
          colors s).2.1).tasks nexa.text = some t
        ∧ t.goal_name = goal_name ∧ t.username = username ∧ t.task_name = nexa.text
        ∧ t.color = colors.color ∧ t.updated_at = now := by
  refine ⟨rfl, ?_, rfl, ?_⟩
  · cases fUserWrite <;> rfl
  · refine ⟨applyTaskFields taskChangeTaskFields
        { goal_name := goal_name, username := username, task_name := nexa.text,
          color := colors.color, updated_at := now, message := none, speed_rating := none }
        ((getAssoc s.tasks nexa.text).getD defaultTask), ?_, rfl, rfl, rfl, rfl, rfl⟩
    simp [handle_task_change, upsertTask, getAssoc_setAssoc_self]

/-- C9: the User write of `handle_timer_end` declares exactly the fields
`{id, pomodoro_spent}`; although the passed object carries
`current_task_id = ""`, an existing document's `current_task_id` is left
untouched by the field-list write, not cleared. -/
theorem handle_timer_end_frame (username : String) (s : StoreState) (u0 : User)
    (h : getAssoc s.users username = some u0) :
    timerEndUserFields = [UserField.id, UserField.pomodoro_spent]
    ∧ getAssoc ((handle_timer_end false false username s).2.1).users username =
        some { u0 with id := username, pomodoro_spent := u0.pomodoro_spent + 1 } := by
  refine ⟨rfl, ?_⟩
  simp [handle_timer_end, upsertUser, h, timerEndUserFields, applyUserFields,
    setUserField, getAssoc_setAssoc_self]

/-- C9 witness: a timer end for a user whose `current_task_id` is
`"task1"` leaves it at `"task1"` while bumping the count. -/
theorem handle_timer_end_frame_witness :
    getAssoc ((handle_timer_end false false "alice"
        { tasks := [],
          users := [("alice",
            { id := "alice", current_task_id := "task1", pomodoro_spent := 4 })] }).2.1).users
        "alice" =
      some { id := "alice", current_task_id := "task1", pomodoro_spent := 5 } := by
  have h := (handle_timer_end_frame "alice"
    { tasks := [],
      users := [("alice",
        { id := "alice", current_task_id := "task1", pomodoro_spent := 4 })] }
    { id := "alice", current_task_id := "task1", pomodoro_spent := 4 } rfl).2
  simpa using h

/-- C10: the speed-rating endpoint ignores the `userId` path segment:
two requests differing only in `userId` produce identical results, store
states and store-operation traces. -/
theorem update_speed_rating_handler_ignores_user_id (fRead fWrite : Bool) (now : Nat)
    (user_id1 user_id2 task_name : String) (payload : Int) (s : StoreState) :
    update_speed_rating_handler fRead fWrite now (user_id1, task_name) payload s =
      update_speed_rating_handler fRead fWrite now (user_id2, task_name) payload s := rfl

end IntendHooks
